import Mathlib

/-!
Verification of the bounded sequential tool-calling orchestration loop of
`backend/ai_generator.py` (class `AIGenerator`), via a shallow embedding.

The model client is embedded as a function from the index of the API call
(0-based) to the `ModelResponse` it returns; the tool manager as an optional
function from a tool name and its keyword-argument mapping to `Except`, where
`Except.error msg` stands for a raised exception whose message is `msg`.
`generate_response` returns a `Trace` recording, besides the final answer
string, the parameters of every model call made (in order) and every
invocation of `tool_manager.execute_tool` (in order).
-/

namespace AIGenerator

/-- A content block of a model response: `{type:"text", text}` or
`{type:"tool_use", id, name, input}`, with the input mapping embedded as an
association list of string keys to string values. -/
inductive ContentBlock where
  | text (text : String)
  | toolUse (id : String) (name : String) (input : List (String × String))
deriving DecidableEq, Repr

/-- A model response: `{stop_reason, content}`. -/
structure ModelResponse where
  stop_reason : String
  content : List ContentBlock
deriving DecidableEq, Repr

/-- The tool_result dict built at lines 108-112 of `ai_generator.py`,
embedded as the association list of exactly the keys the code writes. -/
def mkToolResult (tool_use_id : String) (content : String) : List (String × String) :=
  [("type", "tool_result"), ("tool_use_id", tool_use_id), ("content", content)]

/-- Content of a transcript message: the initial user message holds the raw
query string, assistant messages hold a response's content blocks, and
tool-result user messages hold the list of tool_result dicts. -/
inductive MsgContent where
  | str (s : String)
  | blocks (bs : List ContentBlock)
  | results (rs : List (List (String × String)))
deriving DecidableEq, Repr

/-- A transcript message `{role, content}`. -/
structure Message where
  role : String
  content : MsgContent
deriving DecidableEq, Repr

/-- The `api_params` dict: base params plus messages, system, and the
optional tools / tool_choice entries (`none` = key absent). -/
structure ApiParams where
  model : String
  temperature : Nat
  max_tokens : Nat
  messages : List Message
  system : String
  tools : Option (List String)
  tool_choice : Option String
deriving DecidableEq, Repr

/-- The tool executor capability: `execute_tool(name, **input)`.
`Except.error e` embeds a raised exception with message `e`. -/
abbrev Executor := String → List (String × String) → Except String String

/-- One recorded invocation of `execute_tool`: the name and the input
mapping it was called with. -/
abbrev ExecCall := String × List (String × String)

/-- Observable outcome of one `generate_response` run. -/
structure Trace where
  calls : List ApiParams
  execLog : List ExecCall
  result : String
deriving DecidableEq, Repr

/-- `MAX_TOOL_ROUNDS = 2` (line 7). -/
def MAX_TOOL_ROUNDS : Nat := 2

/-- The static system prompt (lines 10-38), verbatim. -/
def SYSTEM_PROMPT : String :=
" You are an AI assistant specialized in course materials and educational content with access to comprehensive tools for course information.

Search Tool Usage:
- **Content Search**: Use for questions about specific course content or detailed educational materials
- **Course Outline**: Use for questions about course structure, lesson lists, or \"what\x27s in this course\" queries
- You may use up to 2 tools sequentially when a query requires multiple pieces of information (e.g., get a course outline then search for related content)
- Synthesize tool results into accurate, fact-based responses
- If tool yields no results, state this clearly without offering alternatives

Outline Query Protocol:
- When a user asks about course outlines or lesson lists, use get_course_outline
- Return the course title, course link, and complete list of lessons with numbers and titles
- Format the response clearly with the course name, link, and numbered lesson list

Response Protocol:
- **General knowledge questions**: Answer using existing knowledge without searching
- **Course-specific questions**: Search first, then answer
- **No meta-commentary**:
 - Provide direct answers only â€” no reasoning process, search explanations, or question-type analysis
 - Do not mention \"based on the search results\"


All responses must be:
1. **Brief, Concise and focused** - Get to the point quickly
2. **Educational** - Maintain instructional value
3. **Clear** - Use accessible language
4. **Example-supported** - Include relevant examples when they aid understanding
Provide only the direct answer to what was asked.
"

/-- Lines 69-73: the system content. Python truthiness makes both `None`
and the empty string select the bare `SYSTEM_PROMPT`. -/
def build_system_content (conversation_history : Option String) : String :=
  match conversation_history with
  | some h =>
      if h ≠ "" then SYSTEM_PROMPT ++ "\n\nPrevious conversation:\n" ++ h
      else SYSTEM_PROMPT
  | none => SYSTEM_PROMPT

/-- Lines 76-85: the initial `api_params`. `if tools:` is Python truthiness,
so `None` and the empty list both leave the tools / tool_choice keys absent. -/
def initial_params (model : String) (query : String)
    (conversation_history : Option String) (tools : Option (List String)) : ApiParams :=
  let addTools : Bool :=
    match tools with
    | some ts => !ts.isEmpty
    | none => false
  { model := model
    temperature := 0
    max_tokens := 800
    messages := [⟨"user", .str query⟩]
    system := build_system_content conversation_history
    tools := if addTools then tools else none
    tool_choice := if addTools then some "auto" else none }

/-- Outcome of the per-round tool-execution loop (lines 99-112):
the collected tool_result dicts, the `tool_failed` flag, and the log of
`execute_tool` invocations, all in block order. -/
structure RoundOutcome where
  tool_results : List (List (String × String))
  tool_failed : Bool
  log : List ExecCall
deriving DecidableEq, Repr

/-- Lines 99-112: iterate the response content; for each tool_use block call
`execute_tool(block.name, **block.input)`; a raised exception (message `e`)
is caught, yields content `"Error executing tool: " ++ e` and sets
`tool_failed`; execution of the remaining blocks continues. -/
def runTools (exec : Executor) : List ContentBlock → RoundOutcome
  | [] => ⟨[], false, []⟩
  | .text _ :: rest => runTools exec rest
  | .toolUse id name input :: rest =>
      let r := runTools exec rest
      match exec name input with
      | .ok result =>
          ⟨mkToolResult id result :: r.tool_results, r.tool_failed, (name, input) :: r.log⟩
      | .error e =>
          ⟨mkToolResult id ("Error executing tool: " ++ e) :: r.tool_results, true,
            (name, input) :: r.log⟩

/-- Lines 96-120 for one round: append the assistant message mirroring the
response, run the tools, append the single user message with all results, and
on the last allowed round or any tool failure pop tools and tool_choice. -/
def roundParams (exec : Executor) (round_num : Nat) (api_params : ApiParams)
    (response : ModelResponse) : ApiParams :=
  let outcome := runTools exec response.content
  let dropTools := outcome.tool_failed || (round_num == MAX_TOOL_ROUNDS - 1)
  { api_params with
    messages := api_params.messages
      ++ [⟨"assistant", .blocks response.content⟩]
      ++ [⟨"user", .results outcome.tool_results⟩]
    tools := if dropTools then none else api_params.tools
    tool_choice := if dropTools then none else api_params.tool_choice }

/-- Lines 128-131: return the text of the first text block, else the fixed
fallback string. -/
def extractFirstText : List ContentBlock → String
  | [] => "I was unable to generate a response."
  | .text t :: _ => t
  | .toolUse _ _ _ :: rest => extractFirstText rest

/-- Lines 126-131: `_extract_text(response)`. -/
def extract_text (response : ModelResponse) : String :=
  extractFirstText response.content

/-- Lines 91-124: the tool calling loop, `for round_num in range(MAX_TOOL_ROUNDS)`.
`fuel` is the number of loop iterations left (`MAX_TOOL_ROUNDS - round_num`);
`calls` and `log` accumulate the trace; the next model call's index is
`calls.length` (the calls already made). -/
def toolLoop (client : Nat → ModelResponse) (tool_manager : Option Executor) :
    Nat → Nat → ApiParams → ModelResponse → List ApiParams → List ExecCall → Trace
  | 0, _, _, response, calls, log => ⟨calls, log, extract_text response⟩
  | fuel + 1, round_num, api_params, response, calls, log =>
      match tool_manager with
      | none => ⟨calls, log, extract_text response⟩
      | some exec =>
          if response.stop_reason ≠ "tool_use" then ⟨calls, log, extract_text response⟩
          else
            let api_params' := roundParams exec round_num api_params response
            toolLoop client tool_manager fuel (round_num + 1) api_params'
              (client calls.length) (calls ++ [api_params'])
              (log ++ (runTools exec response.content).log)

/-- Lines 51-124: `generate_response`. The initial model call is `client 0`;
the loop then runs with full fuel from round 0. -/
def generate_response (model : String) (client : Nat → ModelResponse) (query : String)
    (conversation_history : Option String) (tools : Option (List String))
    (tool_manager : Option Executor) : Trace :=
  let api_params := initial_params model query conversation_history tools
  toolLoop client tool_manager MAX_TOOL_ROUNDS 0 api_params (client 0) [api_params] []

/-! ### Concrete fixtures for witnesses and counterexamples -/

/-- Client that always answers with a plain text response. -/
def clientHello : Nat → ModelResponse := fun _ => ⟨"end_turn", [.text "Hello!"]⟩

/-- Client: one tool_use round, then a final text response. -/
def clientOneRound : Nat → ModelResponse := fun n =>
  match n with
  | 0 => ⟨"tool_use", [.toolUse "t1" "search_course_content" [("query", "python")]]⟩
  | _ => ⟨"end_turn", [.text "Here are the results"]⟩

/-- Client: two tool_use rounds, then a final text response. -/
def clientTwoRounds : Nat → ModelResponse := fun n =>
  match n with
  | 0 => ⟨"tool_use", [.toolUse "t1" "get_course_outline" [("course_title", "MCP")]]⟩
  | 1 => ⟨"tool_use", [.toolUse "t2" "search_course_content" [("query", "lesson 4 topic")]]⟩
  | _ => ⟨"end_turn", [.text "Final answer"]⟩

/-- Client: first response carries two tool_use blocks, then text. -/
def clientTwoBlocks : Nat → ModelResponse := fun n =>
  match n with
  | 0 => ⟨"tool_use", [.toolUse "t1" "bad_tool" [("query", "x")],
                       .toolUse "t2" "search_course_content" [("query", "y")]]⟩
  | _ => ⟨"end_turn", [.text "Sorry, error occurred"]⟩

/-- Executor that always succeeds with a fixed result. -/
def okExec : Executor := fun _ _ => .ok "tool result text"

/-- Executor that always raises with message "connection failed". -/
def failExec : Executor := fun _ _ => .error "connection failed"

/-- Executor that raises on `bad_tool` and succeeds otherwise. -/
def mixedExec : Executor := fun name _ =>
  if name = "bad_tool" then .error "boom" else .ok "ok result"

/-! ### Generic lemmas about the loop -/

/-- Unfolding: with no fuel left the loop returns the accumulated trace. -/
theorem toolLoop_zero (client : Nat → ModelResponse) (tool_manager : Option Executor)
    (round_num : Nat) (api_params : ApiParams) (response : ModelResponse)
    (calls : List ApiParams) (log : List ExecCall) :
    toolLoop client tool_manager 0 round_num api_params response calls log =
      ⟨calls, log, extract_text response⟩ := rfl

/-- Unfolding: with no fuel left, or a non-tool_use response, or no tool
manager, the loop returns the accumulated trace with the extracted text. -/
theorem toolLoop_stop (client : Nat → ModelResponse) (tool_manager : Option Executor)
    (fuel round_num : Nat) (api_params : ApiParams) (response : ModelResponse)
    (calls : List ApiParams) (log : List ExecCall)
    (h : response.stop_reason ≠ "tool_use" ∨ tool_manager = none) :
    toolLoop client tool_manager fuel round_num api_params response calls log =
      ⟨calls, log, extract_text response⟩ := by
  cases fuel with
  | zero => rfl
  | succ n =>
      cases tool_manager with
      | none => rfl
      | some exec =>
          rcases h with h | h
          · simp [toolLoop, h]
          · cases h

/-- Unfolding: with fuel left, a manager, and a tool_use response, the loop
performs one round and recurses. -/
theorem toolLoop_step (client : Nat → ModelResponse) (exec : Executor)
    (fuel round_num : Nat) (api_params : ApiParams) (response : ModelResponse)
    (calls : List ApiParams) (log : List ExecCall)
    (h : response.stop_reason = "tool_use") :
    toolLoop client (some exec) (fuel + 1) round_num api_params response calls log =
      toolLoop client (some exec) fuel (round_num + 1)
        (roundParams exec round_num api_params response)
        (client calls.length)
        (calls ++ [roundParams exec round_num api_params response])
        (log ++ (runTools exec response.content).log) := by
  simp [toolLoop, h]

/-- Each loop iteration adds exactly one model call, so the number of calls
in the final trace is bounded by the accumulated calls plus the fuel. -/
theorem toolLoop_calls_length (client : Nat → ModelResponse) (tool_manager : Option Executor) :
    ∀ (fuel round_num : Nat) (api_params : ApiParams) (response : ModelResponse)
      (calls : List ApiParams) (log : List ExecCall),
      (toolLoop client tool_manager fuel round_num api_params response calls log).calls.length ≤
        calls.length + fuel := by
  intro fuel
  induction fuel with
  | zero =>
      intro round_num api_params response calls log
      simp [toolLoop]
  | succ n ih =>
      intro round_num api_params response calls log
      cases tool_manager with
      | none => simp [toolLoop]
      | some exec =>
          by_cases h : response.stop_reason = "tool_use"
          · rw [toolLoop_step client exec n round_num api_params response calls log h]
            have := ih (round_num + 1) (roundParams exec round_num api_params response)
              (client calls.length) (calls ++ [roundParams exec round_num api_params response])
              (log ++ (runTools exec response.content).log)
            simp at this
            omega
          · rw [toolLoop_stop client (some exec) (n + 1) round_num api_params response calls log
              (Or.inl h)]
            simp

/-- The (name, input) pairs of the tool_use blocks of a content list, in
order: the invocations of `execute_tool` that one round performs. -/
def toolInvocations : List ContentBlock → List ExecCall
  | [] => []
  | .text _ :: rest => toolInvocations rest
  | .toolUse _ name input :: rest => (name, input) :: toolInvocations rest

/-- The (id, name, input) triples of the tool_use blocks, in order. -/
def toolUseBlocks : List ContentBlock → List (String × String × List (String × String))
  | [] => []
  | .text _ :: rest => toolUseBlocks rest
  | .toolUse id name input :: rest => (id, name, input) :: toolUseBlocks rest

/-- The content string of one tool_result: the executor's return on success,
the error text built from the caught exception's message on failure. -/
def execOne (exec : Executor) (name : String) (input : List (String × String)) : String :=
  match exec name input with
  | .ok result => result
  | .error e => "Error executing tool: " ++ e

/-- Whether one invocation raises. -/
def execFails (exec : Executor) (c : ExecCall) : Bool :=
  match exec c.1 c.2 with
  | .ok _ => false
  | .error _ => true

/-- Every tool_use block of the round is executed, in order, whatever the
individual outcomes: the execution log is exactly `toolInvocations`. -/
theorem runTools_log (exec : Executor) :
    ∀ bs : List ContentBlock, (runTools exec bs).log = toolInvocations bs := by
  intro bs
  induction bs with
  | nil => rfl
  | cons b rest ih =>
      cases b with
      | text t => simpa [runTools, toolInvocations] using ih
      | toolUse id name input =>
          cases hexec : exec name input with
          | ok r => simp [runTools, toolInvocations, hexec, ih]
          | error e => simp [runTools, toolInvocations, hexec, ih]

/-- The tool_result dicts of the round are exactly one per tool_use block,
in order, with content given by `execOne`. -/
theorem runTools_results (exec : Executor) :
    ∀ bs : List ContentBlock,
      (runTools exec bs).tool_results
        = (toolUseBlocks bs).map (fun b => mkToolResult b.1 (execOne exec b.2.1 b.2.2)) := by
  intro bs
  induction bs with
  | nil => rfl
  | cons b rest ih =>
      cases b with
      | text t => simpa [runTools, toolUseBlocks] using ih
      | toolUse id name input =>
          cases hexec : exec name input with
          | ok r => simp [runTools, toolUseBlocks, execOne, hexec, ih]
          | error e => simp [runTools, toolUseBlocks, execOne, hexec, ih]

/-- `tool_failed` is set exactly when some invocation of the round raises. -/
theorem runTools_failed (exec : Executor) :
    ∀ bs : List ContentBlock,
      (runTools exec bs).tool_failed = (toolInvocations bs).any (execFails exec) := by
  intro bs
  induction bs with
  | nil => rfl
  | cons b rest ih =>
      cases b with
      | text t => simpa [runTools, toolInvocations] using ih
      | toolUse id name input =>
          cases hexec : exec name input with
          | ok r => simp [runTools, toolInvocations, execFails, hexec, ih]
          | error e => simp [runTools, toolInvocations, execFails, hexec, ih]

theorem toolInvocations_append (xs ys : List ContentBlock) :
    toolInvocations (xs ++ ys) = toolInvocations xs ++ toolInvocations ys := by
  induction xs with
  | nil => rfl
  | cons b rest ih => cases b <;> simp [toolInvocations, ih]

theorem toolUseBlocks_append (xs ys : List ContentBlock) :
    toolUseBlocks (xs ++ ys) = toolUseBlocks xs ++ toolUseBlocks ys := by
  induction xs with
  | nil => rfl
  | cons b rest ih => cases b <;> simp [toolUseBlocks, ih]

/-! ### Full-run characterizations for the 2-round budget -/

/-- A run whose first response requests tools and whose second does not:
two model calls, round 0's invocations, answer extracted from response 1. -/
theorem run_one_round (model : String) (client : Nat → ModelResponse) (query : String)
    (conversation_history : Option String) (tools : Option (List String)) (exec : Executor)
    (h0 : (client 0).stop_reason = "tool_use")
    (h1 : (client 1).stop_reason ≠ "tool_use") :
    generate_response model client query conversation_history tools (some exec) =
      ⟨[initial_params model query conversation_history tools,
        roundParams exec 0 (initial_params model query conversation_history tools) (client 0)],
       toolInvocations (client 0).content,
       extract_text (client 1)⟩ := by
  calc generate_response model client query conversation_history tools (some exec)
      = toolLoop client (some exec) (1 + 1) 0
          (initial_params model query conversation_history tools) (client 0)
          [initial_params model query conversation_history tools] [] := rfl
    _ = toolLoop client (some exec) 1 1
          (roundParams exec 0 (initial_params model query conversation_history tools) (client 0))
          (client 1)
          [initial_params model query conversation_history tools,
           roundParams exec 0 (initial_params model query conversation_history tools) (client 0)]
          (toolInvocations (client 0).content) := by
        simpa [runTools_log] using toolLoop_step client exec 1 0
          (initial_params model query conversation_history tools) (client 0)
          [initial_params model query conversation_history tools] [] h0
    _ = _ := toolLoop_stop client (some exec) 1 1 _ (client 1) _ _ (Or.inl h1)

/-- A run whose first two responses request tools: three model calls, the
invocations of both rounds in order, answer extracted from response 2 (the
budget is exhausted whatever response 2 is). -/
theorem run_two_rounds (model : String) (client : Nat → ModelResponse) (query : String)
    (conversation_history : Option String) (tools : Option (List String)) (exec : Executor)
    (h0 : (client 0).stop_reason = "tool_use")
    (h1 : (client 1).stop_reason = "tool_use") :
    generate_response model client query conversation_history tools (some exec) =
      ⟨[initial_params model query conversation_history tools,
        roundParams exec 0 (initial_params model query conversation_history tools) (client 0),
        roundParams exec 1
          (roundParams exec 0 (initial_params model query conversation_history tools) (client 0))
          (client 1)],
       toolInvocations (client 0).content ++ toolInvocations (client 1).content,
       extract_text (client 2)⟩ := by
  calc generate_response model client query conversation_history tools (some exec)
      = toolLoop client (some exec) (1 + 1) 0
          (initial_params model query conversation_history tools) (client 0)
          [initial_params model query conversation_history tools] [] := rfl
    _ = toolLoop client (some exec) 1 1
          (roundParams exec 0 (initial_params model query conversation_history tools) (client 0))
          (client 1)
          [initial_params model query conversation_history tools,
           roundParams exec 0 (initial_params model query conversation_history tools) (client 0)]
          (toolInvocations (client 0).content) := by
        simpa [runTools_log] using toolLoop_step client exec 1 0
          (initial_params model query conversation_history tools) (client 0)
          [initial_params model query conversation_history tools] [] h0
    _ = toolLoop client (some exec) 0 2
          (roundParams exec 1
            (roundParams exec 0 (initial_params model query conversation_history tools)
              (client 0)) (client 1))
          (client 2)
          [initial_params model query conversation_history tools,
           roundParams exec 0 (initial_params model query conversation_history tools) (client 0),
           roundParams exec 1
             (roundParams exec 0 (initial_params model query conversation_history tools)
               (client 0)) (client 1)]
          (toolInvocations (client 0).content ++ toolInvocations (client 1).content) := by
        simpa [runTools_log] using toolLoop_step client exec 0 1
          (roundParams exec 0 (initial_params model query conversation_history tools) (client 0))
          (client 1)
          [initial_params model query conversation_history tools,
           roundParams exec 0 (initial_params model query conversation_history tools) (client 0)]
          (toolInvocations (client 0).content) h1
    _ = _ := toolLoop_zero client (some exec) 2 _ (client 2) _ _

/-! ### Claims -/

/-- C1: when the model requests tools on the first two responses (each with a
single tool_use block) and then answers in text, the run makes exactly 3 model
calls and exactly 2 execute calls, and the 3rd call's parameters carry no tool
schemas and no tool-selection directive. -/
theorem c1_two_round_run (model : String) (client : Nat → ModelResponse) (query : String)
    (conversation_history : Option String) (tools : Option (List String)) (exec : Executor)
    (h0 : (client 0).stop_reason = "tool_use")
    (n0 : (toolInvocations (client 0).content).length = 1)
    (h1 : (client 1).stop_reason = "tool_use")
    (n1 : (toolInvocations (client 1).content).length = 1)
    (_h2 : (client 2).stop_reason = "end_turn") :
    (generate_response model client query conversation_history tools (some exec)).calls.length = 3
    ∧ (generate_response model client query conversation_history tools
        (some exec)).execLog.length = 2
    ∧ ((generate_response model client query conversation_history tools
        (some exec)).calls[2]?).map (fun p => (p.tools, p.tool_choice))
        = some (none, none) := by
  rw [run_two_rounds model client query conversation_history tools exec h0 h1]
  refine ⟨rfl, ?_, ?_⟩
  · simp [n0, n1]
  · simp [roundParams, MAX_TOOL_ROUNDS]

/-- C1 witness: the concrete two-round scenario. -/
theorem c1_witness :
    (generate_response "m" clientTwoRounds "complex query" none (some ["schema"])
      (some okExec)).calls.length = 3
    ∧ (generate_response "m" clientTwoRounds "complex query" none (some ["schema"])
        (some okExec)).execLog.length = 2
    ∧ ((generate_response "m" clientTwoRounds "complex query" none (some ["schema"])
        (some okExec)).calls[2]?).map (fun p => (p.tools, p.tool_choice))
        = some (none, none) :=
  c1_two_round_run "m" clientTwoRounds "complex query" none (some ["schema"]) okExec
    (by decide) (by decide) (by decide) (by decide) (by decide)

/-- C2 counterexample: a run matching the claim's run description (first
response tool_use with one block, second response end_turn) in which the tool
execution raises, so the 2nd model call does NOT carry the tool schemas,
refuting the claim as stated. -/
theorem c2_counterexample :
    (clientOneRound 0).stop_reason = "tool_use"
    ∧ toolInvocations (clientOneRound 0).content
        = [("search_course_content", [("query", "python")])]
    ∧ (clientOneRound 1).stop_reason = "end_turn"
    ∧ (generate_response "m" clientOneRound "q" none (some ["schema"])
        (some failExec)).calls.length = 2
    ∧ (generate_response "m" clientOneRound "q" none (some ["schema"])
        (some failExec)).execLog = [("search_course_content", [("query", "python")])]
    ∧ ((generate_response "m" clientOneRound "q" none (some ["schema"])
        (some failExec)).calls[0]?).map ApiParams.tools = some (some ["schema"])
    ∧ ((generate_response "m" clientOneRound "q" none (some ["schema"])
        (some failExec)).calls[1]?).map ApiParams.tools = some none := by
  decide

/-- C2 (amended): as the claim, with the amendment the counterexample forces —
provided the single tool execution returns successfully, the run makes exactly
2 model calls, invokes the executor exactly once with the block's name and
input, and the 2nd call's tools and tool_choice parameters are unchanged from
the 1st (the schemas are still carried). -/
theorem c2_one_round_run (model : String) (client : Nat → ModelResponse) (query : String)
    (conversation_history : Option String) (tools : Option (List String)) (exec : Executor)
    (name : String) (input : List (String × String)) (r : String)
    (h0 : (client 0).stop_reason = "tool_use")
    (hb : toolInvocations (client 0).content = [(name, input)])
    (h1 : (client 1).stop_reason = "end_turn")
    (hok : exec name input = Except.ok r) :
    (generate_response model client query conversation_history tools (some exec)).calls.length = 2
    ∧ (generate_response model client query conversation_history tools (some exec)).execLog
        = [(name, input)]
    ∧ ((generate_response model client query conversation_history tools
        (some exec)).calls[1]?).map (fun p => (p.tools, p.tool_choice))
        = ((generate_response model client query conversation_history tools
            (some exec)).calls[0]?).map (fun p => (p.tools, p.tool_choice)) := by
  have h1' : (client 1).stop_reason ≠ "tool_use" := by rw [h1]; decide
  rw [run_one_round model client query conversation_history tools exec h0 h1']
  have hf : (runTools exec (client 0).content).tool_failed = false := by
    rw [runTools_failed, hb]
    simp [execFails, hok]
  exact ⟨rfl, hb, by simp [roundParams, MAX_TOOL_ROUNDS, hf]⟩

/-- C2 witness: the concrete single-round success scenario. -/
theorem c2_witness :
    (generate_response "m" clientOneRound "search python" none (some ["schema"])
      (some okExec)).calls.length = 2
    ∧ (generate_response "m" clientOneRound "search python" none (some ["schema"])
        (some okExec)).execLog = [("search_course_content", [("query", "python")])]
    ∧ ((generate_response "m" clientOneRound "search python" none (some ["schema"])
        (some okExec)).calls[1]?).map (fun p => (p.tools, p.tool_choice))
        = ((generate_response "m" clientOneRound "search python" none (some ["schema"])
            (some okExec)).calls[0]?).map (fun p => (p.tools, p.tool_choice)) :=
  c2_one_round_run "m" clientOneRound "search python" none (some ["schema"]) okExec
    "search_course_content" [("query", "python")] "tool result text"
    (by decide) (by decide) (by decide) rfl

/-- C3: when a tool execution of the first round raises (message `e`), the
exception is caught (the embedding is a total function, and the raising is
visible only as the `Except.error` fed to `execOne`): every tool_use block of
the round is still executed, in order; the tool_result built for the raising
block has content `"Error executing tool: " ++ e`; and the very next model
call carries no tool schemas and no tool-selection directive even though
round 0 is not the last of the 2-round budget. (The per-round facts hold for
every round, since every round's body is `runTools`.) -/
theorem c3_tool_failure (model : String) (client : Nat → ModelResponse) (query : String)
    (conversation_history : Option String) (tools : Option (List String)) (exec : Executor)
    (pre post : List ContentBlock) (id name : String) (input : List (String × String))
    (e : String)
    (h0 : (client 0).stop_reason = "tool_use")
    (hsplit : (client 0).content = pre ++ ContentBlock.toolUse id name input :: post)
    (hraise : exec name input = Except.error e) :
    (runTools exec (client 0).content).log = toolInvocations (client 0).content
    ∧ ((runTools exec (client 0).content).tool_results)[(toolUseBlocks pre).length]?
        = some (mkToolResult id ("Error executing tool: " ++ e))
    ∧ ((generate_response model client query conversation_history tools
        (some exec)).calls[1]?).map (fun p => (p.tools, p.tool_choice))
        = some (none, none) := by
  refine ⟨runTools_log exec _, ?_, ?_⟩
  · rw [runTools_results, hsplit, toolUseBlocks_append, List.map_append,
      List.getElem?_append_right (by simp)]
    simp [toolUseBlocks, execOne, hraise]
  · have hf : (runTools exec (client 0).content).tool_failed = true := by
      rw [runTools_failed, hsplit, toolInvocations_append]
      simp [toolInvocations, execFails, hraise]
    by_cases h1 : (client 1).stop_reason = "tool_use"
    · rw [run_two_rounds model client query conversation_history tools exec h0 h1]
      simp [roundParams, hf]
    · rw [run_one_round model client query conversation_history tools exec h0 h1]
      simp [roundParams, hf]

/-- C3 witness: first block raises ("boom" from bad_tool), the second block
is still executed, and the next call drops the schemas. -/
theorem c3_witness :
    (runTools mixedExec (clientTwoBlocks 0).content).log
        = toolInvocations (clientTwoBlocks 0).content
    ∧ ((runTools mixedExec (clientTwoBlocks 0).content).tool_results)[
        (toolUseBlocks ([] : List ContentBlock)).length]?
        = some (mkToolResult "t1" ("Error executing tool: " ++ "boom"))
    ∧ ((generate_response "m" clientTwoBlocks "q" none (some ["schema"])
        (some mixedExec)).calls[1]?).map (fun p => (p.tools, p.tool_choice))
        = some (none, none) :=
  c3_tool_failure "m" clientTwoBlocks "q" none (some ["schema"]) mixedExec
    [] [ContentBlock.toolUse "t2" "search_course_content" [("query", "y")]]
    "t1" "bad_tool" [("query", "x")] "boom"
    (by decide) (by decide) rfl

/-- C4: for every model, client behaviour, query, history, tools and tool
manager, `generate_response` terminates (it is a total function) after at
most `MAX_TOOL_ROUNDS = 2` tool-execution rounds, making at most 3 model
calls in total. -/
theorem c4_bounded_calls (model : String) (client : Nat → ModelResponse) (query : String)
    (conversation_history : Option String) (tools : Option (List String))
    (tool_manager : Option Executor) :
    (generate_response model client query conversation_history tools tool_manager).calls.length
      ≤ 1 + MAX_TOOL_ROUNDS := by
  have := toolLoop_calls_length client tool_manager MAX_TOOL_ROUNDS 0
    (initial_params model query conversation_history tools) (client 0)
    [initial_params model query conversation_history tools] []
  simpa [generate_response] using this

/-- C5: if the first response's stop_reason is not tool_use, or no tool
manager was supplied, exactly one model call is made (with the initial
parameters, whether or not tools were supplied), no tool is executed, and
the answer is the extraction of that first response. -/
theorem c5_single_call (model : String) (client : Nat → ModelResponse) (query : String)
    (conversation_history : Option String) (tools : Option (List String))
    (tool_manager : Option Executor)
    (h : (client 0).stop_reason ≠ "tool_use" ∨ tool_manager = none) :
    generate_response model client query conversation_history tools tool_manager =
      ⟨[initial_params model query conversation_history tools], [], extract_text (client 0)⟩ :=
  toolLoop_stop client tool_manager MAX_TOOL_ROUNDS 0
    (initial_params model query conversation_history tools) (client 0)
    [initial_params model query conversation_history tools] [] h

/-- C5 witness: a concrete no-tool run makes one call and returns the text. -/
theorem c5_witness :
    generate_response "m" clientHello "hi" none none none =
      ⟨[initial_params "m" "hi" none none], [], "Hello!"⟩ :=
  c5_single_call "m" clientHello "hi" none none none (Or.inl (by decide))

/-- C6: the transcript is append-only: each completed round appends exactly
one assistant message carrying the triggering response's full content and then
one user message holding that round's tool_result blocks, so the parameters of
the i-th model call hold a transcript whose role sequence is exactly
user, [assistant, user] × i. -/
theorem c6_transcript (model : String) (client : Nat → ModelResponse) (query : String)
    (conversation_history : Option String) (tools : Option (List String)) (exec : Executor) :
    (∀ i, i + 1 < (generate_response model client query conversation_history tools
        (some exec)).calls.length →
      ((generate_response model client query conversation_history tools
          (some exec)).calls[i + 1]?).map ApiParams.messages
        = ((generate_response model client query conversation_history tools
            (some exec)).calls[i]?).map (fun p => p.messages
              ++ [⟨"assistant", .blocks (client i).content⟩,
                  ⟨"user", .results (runTools exec (client i).content).tool_results⟩]))
    ∧ (∀ i, i < (generate_response model client query conversation_history tools
        (some exec)).calls.length →
      ((generate_response model client query conversation_history tools
          (some exec)).calls[i]?).map (fun p => p.messages.map Message.role)
        = some ("user" :: (List.replicate i ["assistant", "user"]).flatten)) := by
  by_cases h0 : (client 0).stop_reason = "tool_use"
  · by_cases h1 : (client 1).stop_reason = "tool_use"
    · rw [run_two_rounds model client query conversation_history tools exec h0 h1]
      constructor
      · intro i hi
        simp at hi
        rcases i with _ | _ | i
        · simp [roundParams]
        · simp [roundParams]
        · omega
      · intro i hi
        simp at hi
        rcases i with _ | _ | _ | i
        · simp [initial_params]
        · simp [roundParams, initial_params]
        · simp [roundParams, initial_params]
        · omega
    · rw [run_one_round model client query conversation_history tools exec h0 h1]
      constructor
      · intro i hi
        simp at hi
        rcases i with _ | i
        · simp [roundParams]
        · omega
      · intro i hi
        simp at hi
        rcases i with _ | _ | i
        · simp [initial_params]
        · simp [roundParams, initial_params]
        · omega
  · have e : generate_response model client query conversation_history tools (some exec)
        = ⟨[initial_params model query conversation_history tools], [],
           extract_text (client 0)⟩ :=
      toolLoop_stop client (some exec) MAX_TOOL_ROUNDS 0
        (initial_params model query conversation_history tools) (client 0)
        [initial_params model query conversation_history tools] [] (Or.inl h0)
    rw [e]
    constructor
    · intro i hi
      simp at hi
    · intro i hi
      simp at hi
      rcases i with _ | i
      · simp [initial_params]
      · omega

/-- C6 witness: round 0's growth and call 2's role sequence, concretely. -/
theorem c6_witness :
    ((generate_response "m" clientTwoRounds "q" none (some ["schema"])
        (some okExec)).calls[0 + 1]?).map ApiParams.messages
      = ((generate_response "m" clientTwoRounds "q" none (some ["schema"])
          (some okExec)).calls[0]?).map (fun p => p.messages
            ++ [⟨"assistant", .blocks (clientTwoRounds 0).content⟩,
                ⟨"user", .results (runTools okExec (clientTwoRounds 0).content).tool_results⟩])
    ∧ ((generate_response "m" clientTwoRounds "q" none (some ["schema"])
        (some okExec)).calls[2]?).map (fun p => p.messages.map Message.role)
      = some ("user" :: (List.replicate 2 ["assistant", "user"]).flatten) :=
  ⟨(c6_transcript "m" clientTwoRounds "q" none (some ["schema"]) okExec).1 0 (by decide),
   (c6_transcript "m" clientTwoRounds "q" none (some ["schema"]) okExec).2 2 (by decide)⟩

/-- C7 counterexample: in a concrete successful run, the tool_result block
constructed in round 0 (visible in the transcript sent on the 2nd call) is
exactly the dict with keys type, tool_use_id, content — it carries no
`is_error` field at all, refuting the claim as stated. -/
theorem c7_counterexample :
    ((generate_response "m" clientOneRound "q" none (some ["schema"])
        (some okExec)).calls[1]?).map (fun p => p.messages.map Message.content)
      = some [MsgContent.str "q", MsgContent.blocks (clientOneRound 0).content,
          MsgContent.results [[("type", "tool_result"), ("tool_use_id", "t1"),
            ("content", "tool result text")]]]
    ∧ (mkToolResult "t1" "tool result text").lookup "is_error" = none
    ∧ (mkToolResult "t1" "tool result text").map Prod.fst
        = ["type", "tool_use_id", "content"] := by
  decide

/-- C7 (amended): every tool_result block constructed during a round carries
exactly the keys type, tool_use_id and content — no `is_error` field; whether
the executor raised is recorded only in the content string, which is the
return value on success and `"Error executing tool: " ++ e` on a raise. -/
theorem c7_no_error_field (exec : Executor) (bs : List ContentBlock) :
    (runTools exec bs).tool_results
        = (toolUseBlocks bs).map (fun b => mkToolResult b.1 (execOne exec b.2.1 b.2.2))
    ∧ (∀ id content, (mkToolResult id content).lookup "is_error" = none
        ∧ (mkToolResult id content).map Prod.fst = ["type", "tool_use_id", "content"])
    ∧ (∀ name input r, exec name input = Except.ok r → execOne exec name input = r)
    ∧ (∀ name input e, exec name input = Except.error e →
        execOne exec name input = "Error executing tool: " ++ e) := by
  refine ⟨runTools_results exec bs, fun id content => ⟨rfl, rfl⟩, ?_, ?_⟩
  · intro name input r hok
    simp [execOne, hok]
  · intro name input e hraise
    simp [execOne, hraise]

/-- C7 witness: the amended statement at a concrete executor and round. -/
theorem c7_witness :
    (runTools mixedExec (clientTwoBlocks 0).content).tool_results
        = (toolUseBlocks (clientTwoBlocks 0).content).map
            (fun b => mkToolResult b.1 (execOne mixedExec b.2.1 b.2.2))
    ∧ ((mkToolResult "t1" "x").lookup "is_error" = none
        ∧ (mkToolResult "t1" "x").map Prod.fst = ["type", "tool_use_id", "content"])
    ∧ execOne mixedExec "search_course_content" [] = "ok result"
    ∧ execOne mixedExec "bad_tool" [] = "Error executing tool: " ++ "boom" :=
  ⟨(c7_no_error_field mixedExec (clientTwoBlocks 0).content).1,
   (c7_no_error_field mixedExec (clientTwoBlocks 0).content).2.1 "t1" "x",
   (c7_no_error_field mixedExec (clientTwoBlocks 0).content).2.2.1
     "search_course_content" [] "ok result" rfl,
   (c7_no_error_field mixedExec (clientTwoBlocks 0).content).2.2.2
     "bad_tool" [] "boom" rfl⟩

/-- C8: the system-text builder is a pure function of its inputs: with no
history it returns the base instructions (the static prompt) unchanged; with
a (non-empty — an empty string counts as absent, cf. C10) history it returns
the base instructions, the fixed separator, and the history text verbatim. -/
theorem c8_build_system (h : String) (hne : h ≠ "") :
    build_system_content none = SYSTEM_PROMPT
    ∧ build_system_content (some h)
        = SYSTEM_PROMPT ++ "\n\nPrevious conversation:\n" ++ h := by
  refine ⟨rfl, ?_⟩
  simp [build_system_content, hne]

/-- C8 witness: the builder at a concrete history text. -/
theorem c8_witness :
    build_system_content none = SYSTEM_PROMPT
    ∧ build_system_content (some "User: hello")
        = SYSTEM_PROMPT ++ "\n\nPrevious conversation:\n" ++ "User: hello" :=
  c8_build_system "User: hello" (by decide)

/-- The spec-side description of the extractor: the text of the first Text
block, if any. -/
def textOf : ContentBlock → Option String
  | .text t => some t
  | .toolUse _ _ _ => none

/-- C9: the extractor returns the text of the first Text block when one
exists and the fixed fallback string otherwise (in particular on empty
content); it is a total function, so `generate_response` always returns a
string. -/
theorem c9_extract (response : ModelResponse) :
    extract_text response
      = (response.content.findSome? textOf).getD "I was unable to generate a response." := by
  obtain ⟨sr, content⟩ := response
  show extractFirstText content = _
  induction content with
  | nil => rfl
  | cons b rest ih =>
      cases b with
      | text t => simp [extractFirstText, textOf, List.findSome?_cons]
      | toolUse id name input =>
          simpa [extractFirstText, textOf, List.findSome?_cons] using ih

/-- C10: an empty-string conversation history is treated identically to an
absent one (Python truthiness): the whole run is the same trace, and the
system text is the base instructions with no separator. -/
theorem c10_empty_history (model : String) (client : Nat → ModelResponse) (query : String)
    (tools : Option (List String)) (tool_manager : Option Executor) :
    generate_response model client query (some "") tools tool_manager
      = generate_response model client query none tools tool_manager
    ∧ build_system_content (some "") = SYSTEM_PROMPT :=
  ⟨rfl, rfl⟩

end AIGenerator
